import Mathlib

/-
  Verification development for the TekkPort (parallel64) register/pin core.

  Shallow embedding of:
    - the bit-manipulation macros P64_CHECKBIT*/P64_SETBIT* from portio.h;
    - the port-direction layer portio_get_port_direction,
      portio_set_port_direction, portio_test_bidirectionality,
      portio_reset_control_pins from portio.h (StandardPort.c copy);
    - StandardPort_set_direction from StandardPort.c;
    - the DigitalInOut getters/setters and GPIO_switch_to_output from
      DigitalInOut.c (second document embedded in the portio.h file).

  Machine bytes are Nat with explicit truncation modulo 256 where the C code
  stores into uint8_t or writes to the one-byte port bus.  C int arithmetic
  on the bitwise complement is modeled as 32-bit two-complement masking; at
  every call site the operands are bytes, so the models agree with the C.

  Port I/O is modeled by an explicit register file (a function from addresses
  to stored values) plus a log of the writeport calls that were performed.
  Hardware bidirectionality support is a flag of the state: on hardware that
  does not support reverse mode, the direction bit (bit 5) of the control
  register of the modeled port always reads back as 0 (FORWARD), which is the
  physical behavior of a unidirectional parallel port; writes are stored
  unchanged.
-/

namespace Parallel64

/-- Truthiness of a C integer expression. -/
def cbool (x : Nat) : Bool := x != 0

/-- Embedding of the C logical negation operator on an int: nonzero maps to
0 and 0 maps to 1. -/
def cnot (x : Nat) : Nat := if x = 0 then 1 else 0

/-- Macro P64_CHECKBITS_UINT8(VALUE, BITMASK, BITINDEX) from portio.h:
((BITMASK << BITINDEX) & VALUE). -/
def P64_CHECKBITS_UINT8 (value bitmask bitindex : Nat) : Nat :=
  (bitmask <<< bitindex) &&& value

/-- Macro P64_CHECKBIT_UINT8(VALUE, BITINDEX) from portio.h. -/
def P64_CHECKBIT_UINT8 (value bitindex : Nat) : Nat :=
  P64_CHECKBITS_UINT8 value 1 bitindex

/-- Macro P64_CHECKBIT_SHIFT(VALUE, BITINDEX) from portio.h. -/
def P64_CHECKBIT_SHIFT (value bitindex : Nat) : Nat :=
  P64_CHECKBIT_UINT8 value bitindex >>> bitindex

/-- Macro P64_SETBITS_OFF(VALUE, BITMASK, BITINDEX) from portio.h:
~(BITMASK << BITINDEX) & VALUE, with the C int complement modeled as
masking against 32 ones.  Every call site passes byte-sized operands, for
which this agrees with the C int computation. -/
def P64_SETBITS_OFF (value bitmask bitindex : Nat) : Nat :=
  value &&& ((2 ^ 32 - 1) ^^^ ((bitmask <<< bitindex) % 2 ^ 32))

/-- Macro P64_SETBITS_ON(VALUE, BITMASK, BITINDEX) from portio.h:
(BITMASK << BITINDEX) | VALUE. -/
def P64_SETBITS_ON (value bitmask bitindex : Nat) : Nat :=
  (bitmask <<< bitindex) ||| value

/-- Macro P64_SETBITS(VALUE, BITMASK, BITINDEX, SETTING) from portio.h. -/
def P64_SETBITS (value bitmask bitindex : Nat) (setting : Bool) : Nat :=
  if setting then P64_SETBITS_ON value bitmask bitindex
  else P64_SETBITS_OFF value bitmask bitindex

/-- Macro P64_SETBIT_OFF(VALUE, BITINDEX) from portio.h. -/
def P64_SETBIT_OFF (value bitindex : Nat) : Nat :=
  P64_SETBITS_OFF value 1 bitindex

/-- Macro P64_SETBIT_ON(VALUE, BITINDEX) from portio.h. -/
def P64_SETBIT_ON (value bitindex : Nat) : Nat :=
  P64_SETBITS_ON value 1 bitindex

/-- Macro P64_SETBIT(VALUE, BITINDEX, SETTING) from portio.h. -/
def P64_SETBIT (value bitindex : Nat) (setting : Bool) : Nat :=
  P64_SETBITS value 1 bitindex setting

/-- DIRECTION_BITINDEX from portio.h. -/
def DIRECTION_BITINDEX : Nat := 5

/-- Enumerator PORT_DIR_FORWARD of port_dir_t (value 0). -/
def PORT_DIR_FORWARD : Nat := 0

/-- Enumerator PORT_DIR_REVERSE of port_dir_t (value 1). -/
def PORT_DIR_REVERSE : Nat := 1

/-- Macro SPP_CONTROL_ADDR(ADDRESS) from portio.h: base plus 2. -/
def SPP_CONTROL_ADDR (address : Nat) : Nat := address + 2

/-- State of the port hardware: a register file of stored values, the SPP
base address of the modeled port, whether the hardware supports reverse
(bidirectional) mode, and a log of performed writeport calls, most recent
first, each entry recording the address and the byte put on the bus. -/
structure IOState where
  reg : Nat → Nat
  base : Nat
  bidirSupported : Bool
  writes : List (Nat × Nat)

/-- Model of readport: returns the stored byte; on hardware without
bidirectional support, bit 5 of the control register of the modeled port
always reads back as 0, reflecting that a unidirectional port cannot be in
reverse mode regardless of what was written. -/
def readport (s : IOState) (address : Nat) : Nat :=
  let b := s.reg address % 256
  if address = s.base + 2 ∧ s.bidirSupported = false then P64_SETBIT b 5 false
  else b

/-- Model of writeport: the low byte of the value is stored at the address
and the write is logged. -/
def writeport (s : IOState) (address value : Nat) : IOState :=
  { s with
    reg := fun a => if a = address then value % 256 else s.reg a
    writes := (address, value % 256) :: s.writes }

/-- Embedding of portio_get_port_direction: reads the control register and
extracts bit DIRECTION_BITINDEX, returning 0 (FORWARD) or 1 (REVERSE).  The
intermediate int8_t cast in the C source sign-extends the byte, which does
not affect bit 5. -/
def portio_get_port_direction (s : IOState) (spp_base_addr : Nat) : Nat :=
  let control_byte := readport s (SPP_CONTROL_ADDR spp_base_addr)
  P64_CHECKBIT_SHIFT control_byte DIRECTION_BITINDEX

/-- Embedding of portio_set_port_direction: computes
P64_SETBIT(direction, DIRECTION_BITINDEX, direction) and writes it to the
control register.  Note that the direction value itself is both the base
value and the setting of the macro, so the written byte is 0x00 for
FORWARD and 0x21 for REVERSE. -/
def portio_set_port_direction (s : IOState) (spp_base_addr direction : Nat) :
    IOState :=
  let new_direction_byte := P64_SETBIT direction DIRECTION_BITINDEX (cbool direction)
  writeport s (SPP_CONTROL_ADDR spp_base_addr) new_direction_byte

/-- Embedding of portio_test_bidirectionality: saves the current direction,
attempts to switch to REVERSE, reads back to decide whether the hardware
accepted the change, and restores FORWARD only when the probe succeeded and
the port started in FORWARD.  Returns the probe outcome and the final
state. -/
def portio_test_bidirectionality (s : IOState) (spp_base_addr : Nat) :
    Bool × IOState :=
  let direction := portio_get_port_direction s spp_base_addr
  let s1 := portio_set_port_direction s spp_base_addr PORT_DIR_REVERSE
  let is_bidir := portio_get_port_direction s1 spp_base_addr == PORT_DIR_REVERSE
  let s2 :=
    if is_bidir && (direction == PORT_DIR_FORWARD) then
      portio_set_port_direction s1 spp_base_addr PORT_DIR_FORWARD
    else s1
  (is_bidir, s2)

/-- Embedding of portio_reset_control_pins: reads the control register,
computes P64_SETBIT(0b11110000, DIRECTION_BITINDEX, is_bidir), ors it with
the byte that was read, ors in bit 2, and writes the result back. -/
def portio_reset_control_pins (s : IOState) (spp_base_addr : Nat)
    (is_bidir : Bool) : IOState :=
  let control_byte := readport s (SPP_CONTROL_ADDR spp_base_addr)
  let bidir_control_byte := P64_SETBIT 0xF0 DIRECTION_BITINDEX is_bidir
  let pre_control_byte := bidir_control_byte ||| control_byte
  let new_control_byte := (1 <<< 2) ||| pre_control_byte
  writeport s (SPP_CONTROL_ADDR spp_base_addr) new_control_byte

/-- Embedding of StandardPort_set_direction from StandardPort.c: the enum
value is read into a uint8_t; when it is 0 the byte ~(1 << 5) & value
(which is 0) is written, otherwise (1 << 5) | value is written, to the
control register. -/
def StandardPort_set_direction (s : IOState) (spp_base_addr dirvalue0 : Nat) :
    IOState :=
  let dirvalue := dirvalue0 % 256
  let dirvalue :=
    if dirvalue = 0 then ((2 ^ 32 - 1) ^^^ (1 <<< 5)) &&& dirvalue
    else (1 <<< 5) ||| dirvalue
  writeport s (SPP_CONTROL_ADDR spp_base_addr) dirvalue

/-- Pin record, from the field accesses DIGINOUT_PIN(self)-> in
DigitalInOut.c.  The pull and drive_mode fields hold the numeric values of
pull_mode_t and drive_mode_t.  Modelled from the spec (the enum definitions
are not among the provided sources): pull values NONE = 0, UP = 1,
DOWN = 2; drive-mode values PUSH_PULL = 0, OPEN_DRAIN = 1.  The direction
field holds a port_dir_t value, 0 FORWARD (output) or 1 REVERSE (input). -/
structure Pin where
  reg_addr : Nat
  bit_index : Nat
  input_allowed : Bool
  output_allowed : Bool
  pull : Nat
  drive_mode : Nat
  direction : Nat
  propagate_dir : Bool
  in_use : Bool
deriving DecidableEq

/-- Enumerator PULL_NONE of pull_mode_t.  Modelled from the spec: the pull
enumeration is listed as NONE, UP, DOWN, giving NONE the value 0. -/
def PULL_NONE : Nat := 0

/-- Python-level Direction enum value INPUT.  Modelled from the spec and
call-site consistency: the getter returns Direction(direction == 0) and a
pin whose port_dir is FORWARD (0) is an output, so OUTPUT = 1, INPUT = 0. -/
def Direction_INPUT : Nat := 0

/-- Python-level Direction enum value OUTPUT.  Modelled from the spec, see
Direction_INPUT. -/
def Direction_OUTPUT : Nat := 1

/-- Python-level DriveMode enum value PUSH_PULL.  Modelled from the spec:
the drive-mode enumeration is listed as PUSH_PULL, OPEN_DRAIN. -/
def DriveMode_PUSH_PULL : Nat := 0

/-- Python exceptions raised by the DigitalInOut code, with the exact
message strings of the source. -/
inductive PyErr where
  | valueError (msg : String)
  | attributeError (msg : String)
deriving DecidableEq

/-- A capability failure is one of the two ValueError messages raised by
DigitalInOut_set_direction when the requested direction is not permitted
for the pin. -/
def PyErr.isCapability : PyErr → Bool
  | .valueError "The pin cannot be use as an input" => true
  | .valueError "The pin cannot be use as an output" => true
  | _ => false

/-- Embedding of DigitalInOut_init: after the isinstance check (which
cannot fail for an argument that is a Pin) the pin is stored and its in_use
flag is set to true.  The source contains no check of the in_use flag. -/
def DigitalInOut_init (pin : Pin) : Option PyErr × Pin :=
  (none, { pin with in_use := true })

/-- Embedding of DigitalInOut_get_direction: returns the Direction enum
value (direction == 0), i.e. OUTPUT (1) when the pin direction is FORWARD
and INPUT (0) when it is REVERSE. -/
def DigitalInOut_get_direction (pin : Pin) : Nat :=
  if pin.direction = 0 then 1 else 0

/-- Embedding of DigitalInOut_get_pull: AttributeError when the direction
is FORWARD; Python None (here Option.none) when the pull is PULL_NONE;
otherwise the Pull enum value constructed from the C logical negation of
the stored pull. -/
def DigitalInOut_get_pull (pin : Pin) : Except PyErr (Option Nat) :=
  if pin.direction = PORT_DIR_FORWARD then
    .error (.attributeError "Not an input")
  else if pin.pull = PULL_NONE then .ok none
  else .ok (some (cnot pin.pull))

/-- Embedding of DigitalInOut_get_drivemode: AttributeError when the
direction is REVERSE; otherwise the DriveMode enum value of the stored
drive mode. -/
def DigitalInOut_get_drivemode (pin : Pin) : Except PyErr Nat :=
  if pin.direction = PORT_DIR_REVERSE then
    .error (.attributeError "Not an output")
  else .ok pin.drive_mode

/-- Embedding of DigitalInOut_get_value: reads the register byte of the pin
and extracts its bit, valid regardless of direction. -/
def DigitalInOut_get_value (pin : Pin) (s : IOState) : Bool :=
  cbool (P64_CHECKBIT_UINT8 (readport s pin.reg_addr) pin.bit_index)

/-- Embedding of DigitalInOut_set_direction.  The argument is the numeric
value of the Python Direction enum member.  The code negates it with the C
logical not, checks the capability flags, then, when propagate_dir is set,
calls portio_set_port_direction on the pin register address with the int
value of (dirvalue == 0), and finally stores the negated value as the pin
direction.  Failures return the unchanged pin and state. -/
def DigitalInOut_set_direction (pin : Pin) (s : IOState) (value : Nat) :
    Option PyErr × Pin × IOState :=
  let reg_addr := pin.reg_addr
  let dirvalue := cnot value
  if dirvalue = 0 ∧ pin.output_allowed = false then
    (some (.valueError "The pin cannot be use as an input"), pin, s)
  else if dirvalue = 1 ∧ pin.input_allowed = false then
    (some (.valueError "The pin cannot be use as an output"), pin, s)
  else
    let s1 :=
      if pin.propagate_dir then
        portio_set_port_direction s reg_addr (if dirvalue = 0 then 1 else 0)
      else s
    (none, { pin with direction := dirvalue }, s1)

/-- Embedding of DigitalInOut_set_pull.  The argument none stands for the
Python value None, which the source maps to PULL_NONE; some v carries the
numeric value of a Pull enum member.  The setter never stores anything. -/
def DigitalInOut_set_pull (pin : Pin) (value : Option Nat) : Option PyErr :=
  if pin.direction ≠ PORT_DIR_REVERSE then
    some (.attributeError "Not an input")
  else
    let pullvalue := value.getD PULL_NONE
    if pullvalue ≠ pin.pull then
      some (.valueError "Pin pull modes cannot be changed from their default")
    else none

/-- Embedding of DigitalInOut_set_drivemode.  The source performs no
direction check: it fails exactly when the requested value differs from the
stored drive mode, and never stores anything. -/
def DigitalInOut_set_drivemode (pin : Pin) (value : Nat) : Option PyErr :=
  if value ≠ pin.drive_mode then
    some (.valueError "Pin drive modes cannot be changed from their default")
  else none

/-- Embedding of DigitalInOut_set_value: AttributeError when the direction
is not FORWARD; otherwise a read-modify-write of the register byte of the
pin. -/
def DigitalInOut_set_value (pin : Pin) (s : IOState) (value : Bool) :
    Option PyErr × Pin × IOState :=
  if pin.direction ≠ PORT_DIR_FORWARD then
    (some (.attributeError "Not an output"), pin, s)
  else
    let current_value := readport s pin.reg_addr
    (none, pin,
      writeport s pin.reg_addr (P64_SETBIT current_value pin.bit_index value))

/-- Embedding of GPIO_switch_to_output: sets the direction attribute to
Direction.OUTPUT, then the value attribute, then the drive_mode attribute,
in that order.  The source ignores the result of every
PyObject_SetAttrString call, so a failing step does not prevent the later
steps from running; the returned error models the pending Python exception,
which is the most recent failure (later successful calls do not clear it). -/
def GPIO_switch_to_output (pin : Pin) (s : IOState) (value : Bool)
    (drive_mode : Nat) : Option PyErr × Pin × IOState :=
  let r1 := DigitalInOut_set_direction pin s Direction_OUTPUT
  let r2 := DigitalInOut_set_value r1.2.1 r1.2.2 value
  let e3 := DigitalInOut_set_drivemode r2.2.1 drive_mode
  (e3 <|> r2.1 <|> r1.1, r2.2.1, r2.2.2)

/-- The single-bit check-and-shift macro computes the indicator of the
tested bit. -/
lemma P64_CHECKBIT_SHIFT_eq (v i : Nat) :
    P64_CHECKBIT_SHIFT v i = if v.testBit i then 1 else 0 := by
  unfold P64_CHECKBIT_SHIFT P64_CHECKBIT_UINT8 P64_CHECKBITS_UINT8
  rw [Nat.one_shiftLeft, Nat.two_pow_and, Nat.shiftRight_eq_div_pow,
    Nat.mul_div_cancel_left _ (Nat.pos_pow_of_pos i (by norm_num))]
  cases v.testBit i <;> rfl

/-- Truthiness of the single-bit check macro is the tested bit. -/
lemma cbool_P64_CHECKBIT_UINT8 (v i : Nat) :
    cbool (P64_CHECKBIT_UINT8 v i) = v.testBit i := by
  unfold cbool P64_CHECKBIT_UINT8 P64_CHECKBITS_UINT8
  rw [Nat.one_shiftLeft, Nat.two_pow_and]
  cases v.testBit i <;> simp [Nat.pos_pow_of_pos i (by norm_num : (0:Nat) < 2)]

/-- Bits of the set-bit macro with setting true. -/
lemma testBit_P64_SETBIT_true (v i j : Nat) :
    (P64_SETBIT v i true).testBit j = (decide (i = j) || v.testBit j) := by
  unfold P64_SETBIT P64_SETBITS P64_SETBITS_ON
  simp [Nat.one_shiftLeft, Nat.testBit_two_pow]

/-- Bits of the set-bit macro with setting false, for byte-sized values and
an index inside the modeled 32-bit int. -/
lemma testBit_P64_SETBIT_false (v i j : Nat) (hv : v < 2 ^ 32) (hi : i < 32) :
    (P64_SETBIT v i false).testBit j = (v.testBit j && !decide (i = j)) := by
  unfold P64_SETBIT P64_SETBITS P64_SETBITS_OFF
  have hpow : (1 <<< i) % 2 ^ 32 = 2 ^ i := by
    rw [Nat.one_shiftLeft]
    exact Nat.mod_eq_of_lt (Nat.pow_lt_pow_right (by norm_num) hi)
  rw [if_neg (by simp), hpow]
  by_cases hj : j < 32
  · simp only [Nat.testBit_and, Nat.testBit_xor, Nat.testBit_two_pow_sub_one,
      Nat.testBit_two_pow, decide_eq_true hj]
    cases hv' : v.testBit j <;> cases hd : decide (i = j) <;> simp_all
  · have h1 : v.testBit j = false :=
      Nat.testBit_lt_two_pow
        (lt_of_lt_of_le hv (Nat.pow_le_pow_right (by norm_num) (le_of_not_lt hj)))
    simp [Nat.testBit_and, h1]

/-- The model read primitive always returns a byte. -/
lemma readport_lt (s : IOState) (a : Nat) : readport s a < 256 := by
  unfold readport
  split
  · exact lt_of_le_of_lt Nat.and_le_left (Nat.mod_lt _ (by norm_num))
  · exact Nat.mod_lt _ (by norm_num)

/-- Bits of a byte-sized read-modify-write: the targeted bit becomes the
setting, every other bit keeps the value of the byte that was read. -/
lemma testBit_P64_SETBIT_mod (old i : Nat) (hold : old < 256) (hi : i < 8)
    (v : Bool) (j : Nat) :
    ((P64_SETBIT old i v) % 256).testBit j
      = if j = i then v else old.testBit j := by
  have h256 : (256 : Nat) = 2 ^ 8 := by norm_num
  rw [h256, Nat.testBit_mod_two_pow]
  by_cases hji : j = i
  · subst hji
    cases v
    · rw [testBit_P64_SETBIT_false old j j (lt_trans hold (by norm_num))
        (lt_trans hi (by norm_num))]
      simp
    · rw [testBit_P64_SETBIT_true]
      simp [decide_eq_true (show j < 8 from hi)]
  · have hij : i ≠ j := fun h => hji h.symm
    by_cases hj8 : j < 8
    · cases v
      · rw [testBit_P64_SETBIT_false old i j (lt_trans hold (by norm_num))
          (lt_trans hi (by norm_num))]
        simp [hj8, hji, hij]
      · rw [testBit_P64_SETBIT_true]
        simp [hj8, hji, hij]
    · have h1 : old.testBit j = false :=
        Nat.testBit_lt_two_pow
          (lt_of_lt_of_le (h256 ▸ hold) (Nat.pow_le_pow_right (by norm_num) (le_of_not_lt hj8)))
      simp [hj8, hji, h1]

/-- On hardware without bidirectional support, reading the port direction
of the modeled port always yields FORWARD. -/
lemma gpd_not_bidir (s : IOState) (addr : Nat) (hb : s.bidirSupported = false)
    (ha : addr = s.base) : portio_get_port_direction s addr = PORT_DIR_FORWARD := by
  unfold portio_get_port_direction readport SPP_CONTROL_ADDR DIRECTION_BITINDEX
  rw [if_pos ⟨by rw [ha], hb⟩, P64_CHECKBIT_SHIFT_eq,
    testBit_P64_SETBIT_false _ 5 5 (lt_trans (Nat.mod_lt _ (by norm_num)) (by norm_num))
      (by norm_num)]
  simp [PORT_DIR_FORWARD]

/-- On hardware with bidirectional support, the port direction is the
indicator of bit 5 of the stored control byte. -/
lemma gpd_bidir (s : IOState) (addr : Nat) (hb : s.bidirSupported = true) :
    portio_get_port_direction s addr
      = if (s.reg (addr + 2) % 256).testBit 5 then 1 else 0 := by
  unfold portio_get_port_direction readport SPP_CONTROL_ADDR DIRECTION_BITINDEX
  rw [if_neg (by simp [hb]), P64_CHECKBIT_SHIFT_eq]

/-- Reading the port direction right after a write to the control register,
on hardware with bidirectional support. -/
lemma gpd_after_write (s : IOState) (addr v : Nat) (hb : s.bidirSupported = true) :
    portio_get_port_direction (writeport s (addr + 2) v) addr
      = if (v % 256).testBit 5 then 1 else 0 := by
  rw [gpd_bidir (writeport s (addr + 2) v) addr hb]
  unfold writeport
  simp [Nat.mod_eq_of_lt (Nat.mod_lt v (show 0 < 256 by norm_num))]

/-- Claim C2: for every starting control-register state, after
portio_test_bidirectionality completes, the port direction is FORWARD if
and only if it was FORWARD before the call, regardless of whether the
hardware accepted the attempted switch to REVERSE (both values of
bidirSupported, every starting register file). -/
theorem c2_probe_preserves_forward (s : IOState) :
    portio_get_port_direction (portio_test_bidirectionality s s.base).2 s.base
        = PORT_DIR_FORWARD
      ↔ portio_get_port_direction s s.base = PORT_DIR_FORWARD := by
  have h33 : P64_SETBIT PORT_DIR_REVERSE DIRECTION_BITINDEX (cbool PORT_DIR_REVERSE)
      = 33 := by decide
  have h00 : P64_SETBIT PORT_DIR_FORWARD DIRECTION_BITINDEX (cbool PORT_DIR_FORWARD)
      = 0 := by decide
  unfold portio_test_bidirectionality portio_set_port_direction SPP_CONTROL_ADDR
  rw [h33, h00]
  cases hb : s.bidirSupported
  · have hstart : portio_get_port_direction s s.base = 0 := gpd_not_bidir s s.base hb rfl
    have hafter : portio_get_port_direction (writeport s (s.base + 2) 33) s.base = 0 :=
      gpd_not_bidir (writeport s (s.base + 2) 33) s.base hb rfl
    simp [hstart, hafter, PORT_DIR_REVERSE, PORT_DIR_FORWARD]
  · have hstart : portio_get_port_direction s s.base
        = if (s.reg (s.base + 2) % 256).testBit 5 then 1 else 0 := gpd_bidir s s.base hb
    have hafter : portio_get_port_direction (writeport s (s.base + 2) 33) s.base = 1 := by
      rw [gpd_after_write s s.base 33 hb]
      decide
    by_cases h5 : (s.reg (s.base + 2) % 256).testBit 5
    · simp [hstart, h5, hafter, PORT_DIR_REVERSE, PORT_DIR_FORWARD]
    · have hrestore :
          portio_get_port_direction (writeport (writeport s (s.base + 2) 33) (s.base + 2) 0)
            s.base = 0 := by
        rw [gpd_after_write (writeport s (s.base + 2) 33) s.base 0 hb]
        decide
      simp [hstart, h5, hafter, hrestore, PORT_DIR_REVERSE, PORT_DIR_FORWARD]

/-- Concrete port state: all registers read zero, SPP base address 0x378,
hardware with bidirectional support, empty write log. -/
def ioZero : IOState :=
  { reg := fun _ => 0, base := 0x378, bidirSupported := true, writes := [] }

/-- Concrete pin on the data register of port 0x378 with both directions
permitted and direction propagation enabled, currently an input. -/
def pinPropagating : Pin :=
  { reg_addr := 0x378, bit_index := 0, input_allowed := true, output_allowed := true,
    pull := 0, drive_mode := 0, direction := 1, propagate_dir := true, in_use := true }

/-- Claim C1, evaluation of the code at the failing input: on a pin with
propagation enabled, a successful setDirection(OUTPUT) (enum value 1)
invokes the port-level setter with REVERSE, writing the byte 0x21 (bit 5
set) to the control register, and a successful setDirection(INPUT) (enum
value 0) invokes it with FORWARD, writing 0x00 — exactly opposite to the
mapping the claim states (INPUT to REVERSE, OUTPUT to FORWARD). -/
theorem c1_propagation_inverted_eval :
    (DigitalInOut_set_direction pinPropagating ioZero Direction_OUTPUT).1 = none
    ∧ (DigitalInOut_set_direction pinPropagating ioZero Direction_OUTPUT).2.2.writes
        = [(0x37A, 0x21)]
    ∧ (DigitalInOut_set_direction pinPropagating ioZero Direction_INPUT).1 = none
    ∧ (DigitalInOut_set_direction pinPropagating ioZero Direction_INPUT).2.2.writes
        = [(0x37A, 0x00)] := by
  refine ⟨rfl, by decide, rfl, by decide⟩

/-- Claim C3: setDirection fails with a capability error when OUTPUT is
requested on a pin that does not allow output or INPUT is requested on a
pin that does not allow input, and in every such case the recorded pin
direction and the whole port state (in particular the write log) are
returned unchanged. -/
theorem c3_set_direction_capability (pin : Pin) (s : IOState) (d : Nat)
    (h : (d = Direction_OUTPUT ∧ pin.output_allowed = false)
       ∨ (d = Direction_INPUT ∧ pin.input_allowed = false)) :
    ∃ e, DigitalInOut_set_direction pin s d = (some e, pin, s)
      ∧ e.isCapability = true := by
  rcases h with ⟨rfl, hout⟩ | ⟨rfl, hin⟩
  · refine ⟨.valueError "The pin cannot be use as an input", ?_, rfl⟩
    unfold DigitalInOut_set_direction cnot Direction_OUTPUT
    rw [if_pos]
    exact ⟨by norm_num, hout⟩
  · refine ⟨.valueError "The pin cannot be use as an output", ?_, rfl⟩
    unfold DigitalInOut_set_direction cnot Direction_INPUT
    rw [if_neg (by simp), if_pos]
    exact ⟨by norm_num, hin⟩

/-- Concrete pin that does not permit output. -/
def pinNoOutput : Pin :=
  { reg_addr := 0x378, bit_index := 3, input_allowed := true, output_allowed := false,
    pull := 0, drive_mode := 0, direction := 1, propagate_dir := true, in_use := true }

/-- Witness for claim C3 at a concrete input. -/
theorem c3_set_direction_capability_witness :
    ((Direction_OUTPUT = Direction_OUTPUT ∧ pinNoOutput.output_allowed = false)
       ∨ (Direction_OUTPUT = Direction_INPUT ∧ pinNoOutput.input_allowed = false))
    ∧ ∃ e, DigitalInOut_set_direction pinNoOutput ioZero Direction_OUTPUT
            = (some e, pinNoOutput, ioZero)
        ∧ e.isCapability = true :=
  ⟨by decide, c3_set_direction_capability pinNoOutput ioZero Direction_OUTPUT (by decide)⟩

/-- Concrete pin that is already bound (in_use true). -/
def pinAlreadyBound : Pin :=
  { reg_addr := 0x378, bit_index := 3, input_allowed := true, output_allowed := true,
    pull := 0, drive_mode := 0, direction := 0, propagate_dir := false, in_use := true }

/-- Claim C4, evaluation of the code at the failing input: constructing a
DigitalInOut over a pin whose in_use flag is already true succeeds (returns
no error) and merely re-assigns in_use to true; DigitalInOut_init contains
no check of the flag, so no BindingError is possible. -/
theorem c4_double_bind_succeeds_eval :
    DigitalInOut_init pinAlreadyBound = (none, pinAlreadyBound) := by
  decide

/-- Claim C5: on a pin whose direction is OUTPUT (port_dir FORWARD), with a
bit index inside the byte and a register whose stored byte is what read-back
returns (the pin register is not the direction-masked control register of
unidirectional hardware), setValue(v) succeeds, performs exactly one write:
the byte that was read with only the target bit forced to v, every other
bit of the byte unchanged; and an immediately following getValue returns
v. -/
theorem c5_set_value_read_modify_write (pin : Pin) (s : IOState) (v : Bool)
    (hdir : pin.direction = PORT_DIR_FORWARD)
    (hbit : pin.bit_index < 8)
    (hreg : s.bidirSupported = true ∨ pin.reg_addr ≠ s.base + 2) :
    (DigitalInOut_set_value pin s v).1 = none
    ∧ (DigitalInOut_set_value pin s v).2.2.writes
        = (pin.reg_addr,
            P64_SETBIT (readport s pin.reg_addr) pin.bit_index v % 256) :: s.writes
    ∧ (P64_SETBIT (readport s pin.reg_addr) pin.bit_index v % 256).testBit pin.bit_index
        = v
    ∧ (∀ j, j ≠ pin.bit_index →
        (P64_SETBIT (readport s pin.reg_addr) pin.bit_index v % 256).testBit j
          = (readport s pin.reg_addr).testBit j)
    ∧ DigitalInOut_get_value pin (DigitalInOut_set_value pin s v).2.2 = v := by
  have hold : readport s pin.reg_addr < 256 := readport_lt s pin.reg_addr
  have hset :
      DigitalInOut_set_value pin s v
        = (none, pin,
            writeport s pin.reg_addr
              (P64_SETBIT (readport s pin.reg_addr) pin.bit_index v)) := by
    unfold DigitalInOut_set_value
    rw [if_neg (by simp [hdir, PORT_DIR_FORWARD])]
  have hbits := testBit_P64_SETBIT_mod (readport s pin.reg_addr) pin.bit_index hold hbit v
  refine ⟨by rw [hset], by rw [hset]; rfl, ?_, ?_, ?_⟩
  · rw [hbits pin.bit_index, if_pos rfl]
  · intro j hj
    rw [hbits j, if_neg hj]
  · rw [hset]
    unfold DigitalInOut_get_value
    rw [cbool_P64_CHECKBIT_UINT8]
    have hread :
        readport (writeport s pin.reg_addr
            (P64_SETBIT (readport s pin.reg_addr) pin.bit_index v)) pin.reg_addr
          = P64_SETBIT (readport s pin.reg_addr) pin.bit_index v % 256 := by
      unfold readport writeport
      rcases hreg with hbd | hne
      · rw [if_neg (by simp [hbd])]
        simp [Nat.mod_mod_of_dvd _ (dvd_refl 256)]
      · rw [if_neg (by simp [hne])]
        simp [Nat.mod_mod_of_dvd _ (dvd_refl 256)]
    rw [hread, hbits pin.bit_index, if_pos rfl]

/-- Concrete output-capable pin on the data register. -/
def pinOutput : Pin :=
  { reg_addr := 0x378, bit_index := 3, input_allowed := false, output_allowed := true,
    pull := 0, drive_mode := 0, direction := 0, propagate_dir := false, in_use := true }

/-- Concrete port state whose data register reads 0xF1. -/
def ioF1 : IOState :=
  { reg := fun _ => 0xF1, base := 0x378, bidirSupported := true, writes := [] }

/-- Witness for claim C5 at a concrete input. -/
theorem c5_set_value_read_modify_write_witness :
    (pinOutput.direction = PORT_DIR_FORWARD ∧ pinOutput.bit_index < 8
      ∧ (ioF1.bidirSupported = true ∨ pinOutput.reg_addr ≠ ioF1.base + 2))
    ∧ ((DigitalInOut_set_value pinOutput ioF1 true).1 = none
    ∧ (DigitalInOut_set_value pinOutput ioF1 true).2.2.writes
        = (pinOutput.reg_addr,
            P64_SETBIT (readport ioF1 pinOutput.reg_addr) pinOutput.bit_index true % 256)
          :: ioF1.writes
    ∧ (P64_SETBIT (readport ioF1 pinOutput.reg_addr) pinOutput.bit_index true % 256).testBit
        pinOutput.bit_index = true
    ∧ (∀ j, j ≠ pinOutput.bit_index →
        (P64_SETBIT (readport ioF1 pinOutput.reg_addr) pinOutput.bit_index true
            % 256).testBit j
          = (readport ioF1 pinOutput.reg_addr).testBit j)
    ∧ DigitalInOut_get_value pinOutput (DigitalInOut_set_value pinOutput ioF1 true).2.2
        = true) :=
  ⟨by decide,
    c5_set_value_read_modify_write pinOutput ioF1 true (by decide) (by decide)
      (Or.inl (by decide))⟩

/-- Claim C10: for both direction values, the port-level direction setter
of portio.h writes to the control register a byte determined by the
direction alone — 0x00 for FORWARD and 0x21 for REVERSE, for every prior
register state — and StandardPort_set_direction writes the identical
byte. -/
theorem c10_direction_write_bytes (s : IOState) (addr d : Nat)
    (h : d = PORT_DIR_FORWARD ∨ d = PORT_DIR_REVERSE) :
    (portio_set_port_direction s addr d).writes
        = (addr + 2, if d = PORT_DIR_FORWARD then 0x00 else 0x21) :: s.writes
    ∧ (StandardPort_set_direction s addr d).writes
        = (addr + 2, if d = PORT_DIR_FORWARD then 0x00 else 0x21) :: s.writes := by
  rcases h with rfl | rfl
  · exact ⟨rfl, rfl⟩
  · exact ⟨rfl, rfl⟩

/-- Witness for claim C10 at a concrete input. -/
theorem c10_direction_write_bytes_witness :
    (PORT_DIR_REVERSE = PORT_DIR_FORWARD ∨ PORT_DIR_REVERSE = PORT_DIR_REVERSE)
    ∧ ((portio_set_port_direction ioZero 0x378 PORT_DIR_REVERSE).writes
        = (0x378 + 2, if PORT_DIR_REVERSE = PORT_DIR_FORWARD then 0x00 else 0x21)
          :: ioZero.writes
    ∧ (StandardPort_set_direction ioZero 0x378 PORT_DIR_REVERSE).writes
        = (0x378 + 2, if PORT_DIR_REVERSE = PORT_DIR_FORWARD then 0x00 else 0x21)
          :: ioZero.writes) :=
  ⟨by decide, c10_direction_write_bytes ioZero 0x378 PORT_DIR_REVERSE (Or.inr rfl)⟩

/-- Concrete port state whose control register reads 0x21. -/
def io21 : IOState :=
  { reg := fun _ => 0x21, base := 0x378, bidirSupported := true, writes := [] }

/-- Counterexample to claim C6: with isBidirectional false, prior contents
0x00 give the written control byte 0xD4 (low nibble 4, bit 5 clear) while
prior contents 0x21 give 0xF5 (low nibble 5, bit 5 set).  The low nibble
therefore depends on the prior register contents, and the direction bit of
the second write is 1 although isBidirectional is false — both parts of
the claim fail. -/
theorem c6_reset_control_counterexample :
    (portio_reset_control_pins ioZero 0x378 false).writes = [(0x37A, 0xD4)]
    ∧ (portio_reset_control_pins io21 0x378 false).writes = [(0x37A, 0xF5)]
    ∧ (0xD4 : Nat) % 16 ≠ (0xF5 : Nat) % 16
    ∧ (0xF5 : Nat).testBit 5 = true := by
  decide

/-- Claim C6 as amended: resetControlPins does not force a canonical low
nibble; it ors the prior control byte with a constant mask — 0xF4 when
isBidirectional, 0xD4 otherwise — so bit 2 is forced set, bits 0, 1 and 3
keep their prior values, bits 4, 6 and 7 are forced set, and the direction
bit becomes isBidirectional or its prior value. -/
theorem c6_reset_control_amended (s : IOState) (addr : Nat) (bidir : Bool) :
    (portio_reset_control_pins s addr bidir).writes
      = (addr + 2, readport s (addr + 2) ||| (if bidir then 0xF4 else 0xD4))
          :: s.writes := by
  have hr : readport s (addr + 2) < 256 := readport_lt s (addr + 2)
  have h256 : (256 : Nat) = 2 ^ 8 := by norm_num
  have hbyte : ((1 <<< 2) ||| (P64_SETBIT 0xF0 5 bidir ||| readport s (addr + 2))) % 256
      = readport s (addr + 2) ||| (if bidir then 0xF4 else 0xD4) := by
    cases bidir
    · have hm : P64_SETBIT 0xF0 5 false = 0xD0 := by decide
      have hc : (1 <<< 2 : Nat) ||| 0xD0 = 0xD4 := by decide
      rw [hm, ← Nat.lor_assoc, hc, Nat.lor_comm, if_neg (by simp)]
      exact Nat.mod_eq_of_lt (h256 ▸ Nat.or_lt_two_pow (h256 ▸ hr) (by norm_num))
    · have hm : P64_SETBIT 0xF0 5 true = 0xF0 := by decide
      have hc : (1 <<< 2 : Nat) ||| 0xF0 = 0xF4 := by decide
      rw [hm, ← Nat.lor_assoc, hc, Nat.lor_comm, if_pos rfl]
      exact Nat.mod_eq_of_lt (h256 ▸ Nat.or_lt_two_pow (h256 ▸ hr) (by norm_num))
  show (writeport s (addr + 2)
      ((1 <<< 2) ||| (P64_SETBIT 0xF0 5 bidir ||| readport s (addr + 2)))).writes
    = (addr + 2, readport s (addr + 2) ||| (if bidir then 0xF4 else 0xD4)) :: s.writes
  unfold writeport
  rw [hbyte]

/-- Concrete input-capable pin whose fixed default pull is UP (value 1). -/
def pinPullUp : Pin :=
  { reg_addr := 0x379, bit_index := 4, input_allowed := true, output_allowed := false,
    pull := 1, drive_mode := 0, direction := 1, propagate_dir := false, in_use := true }

/-- Counterexample to claim C7: on an input pin whose fixed pull is UP
(enum value 1), setPull(UP) succeeds, yet the following getPull — whose
direction precondition is satisfied — returns the Pull enum value 0
(NONE), not UP: the getter applies the C logical negation to the stored
pull, so the pull property does not round-trip. -/
theorem c7_pull_no_roundtrip_counterexample :
    DigitalInOut_set_pull pinPullUp (some 1) = none
    ∧ DigitalInOut_get_pull pinPullUp = .ok (some 0)
    ∧ (0 : Nat) ≠ 1 :=
  ⟨by decide, rfl, by decide⟩

/-- Claim C7 as amended: the direction and drive_mode properties round-trip
through their getter/setter pairs (a successful set of direction d in
INPUT/OUTPUT is returned unchanged by the getter, and a successful set of a
drive mode m is returned unchanged by the getter when the pin is an
output), but the pull property never round-trips: after any successful
setPull with an enum value v, getPull does not return v (it returns the
negation of the stored pull, or Python None when the stored pull is
NONE). -/
theorem c7_roundtrip_amended (pin : Pin) (s : IOState) (d v m : Nat) :
    (d ≤ 1 → (DigitalInOut_set_direction pin s d).1 = none →
      DigitalInOut_get_direction (DigitalInOut_set_direction pin s d).2.1 = d)
    ∧ (DigitalInOut_set_drivemode pin m = none →
        pin.direction ≠ PORT_DIR_REVERSE →
      DigitalInOut_get_drivemode pin = .ok m)
    ∧ (DigitalInOut_set_pull pin (some v) = none →
      DigitalInOut_get_pull pin ≠ .ok (some v)) := by
  refine ⟨?_, ?_, ?_⟩
  · intro hd hnone
    interval_cases d
    · unfold DigitalInOut_set_direction cnot at hnone ⊢
      rw [if_neg (by simp)] at hnone ⊢
      by_cases hin : pin.input_allowed = false
      · rw [if_pos ⟨rfl, hin⟩] at hnone
        exact absurd hnone (by simp)
      · rw [if_neg (by simp [hin])] at hnone ⊢
        unfold DigitalInOut_get_direction
        simp
    · unfold DigitalInOut_set_direction cnot at hnone ⊢
      by_cases hout : pin.output_allowed = false
      · rw [if_pos ⟨by norm_num, hout⟩] at hnone
        exact absurd hnone (by simp)
      · rw [if_neg (by simp [hout])] at hnone ⊢
        rw [if_neg (by norm_num)] at hnone ⊢
        unfold DigitalInOut_get_direction
        simp
  · intro hnone hdir
    unfold DigitalInOut_set_drivemode at hnone
    have hm : m = pin.drive_mode := by
      by_contra hne
      rw [if_pos hne] at hnone
      exact absurd hnone (by simp)
    unfold DigitalInOut_get_drivemode
    rw [if_neg hdir, hm]
  · intro hnone
    unfold DigitalInOut_set_pull at hnone
    by_cases hdir : pin.direction ≠ PORT_DIR_REVERSE
    · rw [if_pos hdir] at hnone
      exact absurd hnone (by simp)
    · rw [if_neg hdir] at hnone
      have hv : v = pin.pull := by
        by_contra hne
        rw [Option.getD_some, if_pos hne] at hnone
        exact absurd hnone (by simp)
      have hdir' : pin.direction = PORT_DIR_REVERSE := not_not.mp hdir
      unfold DigitalInOut_get_pull
      rw [if_neg (by simp [hdir', PORT_DIR_REVERSE, PORT_DIR_FORWARD])]
      by_cases hp : pin.pull = PULL_NONE
      · rw [if_pos hp]
        simp
      · rw [if_neg hp]
        unfold cnot
        rw [if_neg (show ¬pin.pull = 0 from hp)]
        have hvz : v ≠ 0 := by rw [hv]; exact hp
        simp [Ne.symm hvz]

/-- Concrete output pin used for the drive-mode round-trip witness. -/
def pinDriveOutput : Pin :=
  { reg_addr := 0x378, bit_index := 2, input_allowed := false, output_allowed := true,
    pull := 0, drive_mode := 0, direction := 0, propagate_dir := false, in_use := true }

/-- Witness for the amended claim C7 at concrete inputs: the direction
round-trip at d = OUTPUT, the drive-mode round-trip at the fixed default,
and the pull non-round-trip at the UP pin. -/
theorem c7_roundtrip_amended_witness :
    DigitalInOut_get_direction
        (DigitalInOut_set_direction pinDriveOutput ioZero 1).2.1 = 1
    ∧ DigitalInOut_get_drivemode pinDriveOutput = .ok 0
    ∧ DigitalInOut_get_pull pinPullUp ≠ .ok (some 1) :=
  ⟨(c7_roundtrip_amended pinDriveOutput ioZero 1 0 0).1 (by decide) (by decide),
   (c7_roundtrip_amended pinDriveOutput ioZero 1 0 0).2.1 (by decide) (by decide),
   (c7_roundtrip_amended pinPullUp ioZero 1 1 0).2.2 (by decide)⟩

/-- Concrete pin that does not permit output but whose recorded direction
is currently FORWARD. -/
def pinNoOutputForward : Pin :=
  { reg_addr := 0x378, bit_index := 3, input_allowed := true, output_allowed := false,
    pull := 0, drive_mode := 0, direction := 0, propagate_dir := false, in_use := true }

/-- Counterexample to claim C8: on a pin that does not permit output, the
first step of switch_to_output (set direction to OUTPUT) fails with a
capability error, yet the remaining steps are still performed — the second
step writes the byte 0x08 to the data register — contradicting that a
failing step prevents the remaining steps. -/
theorem c8_no_abort_counterexample :
    (DigitalInOut_set_direction pinNoOutputForward ioZero Direction_OUTPUT).1
        = some (.valueError "The pin cannot be use as an input")
    ∧ (GPIO_switch_to_output pinNoOutputForward ioZero true DriveMode_PUSH_PULL).2.2.writes
        = [(0x378, 0x08)] := by
  refine ⟨by decide, by decide⟩

/-- Claim C8 as amended: switch_to_output attempts set direction to OUTPUT,
then set value, then set drive mode, in that order, but ignores the result
of each step, so a failing step does not abort the remaining ones: on a pin
that forbids output while its recorded direction is FORWARD, the direction
step fails, the value step still performs its register write, the
drive-mode step still runs, and the reported pending error is the
capability failure of the first step. -/
theorem c8_switch_to_output_amended (pin : Pin) (s : IOState) (v : Bool) (dm : Nat)
    (hout : pin.output_allowed = false)
    (hdir : pin.direction = PORT_DIR_FORWARD)
    (hdm : dm = pin.drive_mode) :
    (GPIO_switch_to_output pin s v dm).1
        = some (.valueError "The pin cannot be use as an input")
    ∧ (GPIO_switch_to_output pin s v dm).2.2.writes
        = (pin.reg_addr,
            P64_SETBIT (readport s pin.reg_addr) pin.bit_index v % 256) :: s.writes := by
  have h1 : DigitalInOut_set_direction pin s Direction_OUTPUT
      = (some (.valueError "The pin cannot be use as an input"), pin, s) := by
    unfold DigitalInOut_set_direction cnot Direction_OUTPUT
    rw [if_pos ⟨by norm_num, hout⟩]
  have h2 : DigitalInOut_set_value pin s v
      = (none, pin,
          writeport s pin.reg_addr
            (P64_SETBIT (readport s pin.reg_addr) pin.bit_index v)) := by
    unfold DigitalInOut_set_value
    rw [if_neg (by simp [hdir, PORT_DIR_FORWARD])]
  have h3 : DigitalInOut_set_drivemode pin dm = none := by
    unfold DigitalInOut_set_drivemode
    rw [if_neg (by simp [hdm])]
  unfold GPIO_switch_to_output
  rw [h1]
  show (DigitalInOut_set_drivemode (DigitalInOut_set_value pin s v).2.1 dm
          <|> (DigitalInOut_set_value pin s v).1
          <|> some (.valueError "The pin cannot be use as an input"),
        (DigitalInOut_set_value pin s v).2.1,
        (DigitalInOut_set_value pin s v).2.2).1
      = some (.valueError "The pin cannot be use as an input")
    ∧ ((DigitalInOut_set_value pin s v).2.2).writes = _
  rw [h2, h3]
  exact ⟨rfl, rfl⟩

/-- Witness for the amended claim C8 at a concrete input. -/
theorem c8_switch_to_output_amended_witness :
    (pinNoOutputForward.output_allowed = false
      ∧ pinNoOutputForward.direction = PORT_DIR_FORWARD
      ∧ DriveMode_PUSH_PULL = pinNoOutputForward.drive_mode)
    ∧ ((GPIO_switch_to_output pinNoOutputForward ioZero true DriveMode_PUSH_PULL).1
        = some (.valueError "The pin cannot be use as an input")
    ∧ (GPIO_switch_to_output pinNoOutputForward ioZero true DriveMode_PUSH_PULL).2.2.writes
        = (pinNoOutputForward.reg_addr,
            P64_SETBIT (readport ioZero pinNoOutputForward.reg_addr)
                pinNoOutputForward.bit_index true % 256) :: ioZero.writes) :=
  ⟨by decide,
    c8_switch_to_output_amended pinNoOutputForward ioZero true DriveMode_PUSH_PULL
      (by decide) (by decide) (by decide)⟩

/-- Concrete input pin (direction REVERSE) with the default drive mode
PUSH_PULL. -/
def pinInputDefaultDrive : Pin :=
  { reg_addr := 0x379, bit_index := 4, input_allowed := true, output_allowed := false,
    pull := 0, drive_mode := 0, direction := 1, propagate_dir := false, in_use := true }

/-- Counterexample to claim C9: on a pin whose direction is REVERSE (not
OUTPUT), setDriveMode with the default drive mode succeeds (returns no
error) instead of failing with a StateError — the source setter performs
no direction check. -/
theorem c9_set_drivemode_counterexample :
    pinInputDefaultDrive.direction = PORT_DIR_REVERSE
    ∧ DigitalInOut_set_drivemode pinInputDefaultDrive DriveMode_PUSH_PULL = none := by
  decide

/-- Claim C9 as amended: getDriveMode fails with a StateError when the pin
direction is REVERSE (not OUTPUT), but setDriveMode performs no direction
check at all: for every pin it fails with a ConfigError exactly when the
requested value differs from the fixed default drive mode, and succeeds
otherwise, in any direction. -/
theorem c9_drivemode_amended (pin : Pin) (m : Nat) :
    (pin.direction = PORT_DIR_REVERSE →
      DigitalInOut_get_drivemode pin = .error (.attributeError "Not an output"))
    ∧ DigitalInOut_set_drivemode pin m
        = (if m = pin.drive_mode then none
           else some (.valueError "Pin drive modes cannot be changed from their default")) := by
  constructor
  · intro hdir
    unfold DigitalInOut_get_drivemode
    rw [if_pos hdir]
  · unfold DigitalInOut_set_drivemode
    by_cases hm : m = pin.drive_mode
    · rw [if_neg (by simp [hm]), if_pos hm]
    · rw [if_pos hm, if_neg hm]

/-- Witness for the amended claim C9 at a concrete input. -/
theorem c9_drivemode_amended_witness :
    DigitalInOut_get_drivemode pinInputDefaultDrive
        = .error (.attributeError "Not an output")
    ∧ DigitalInOut_set_drivemode pinInputDefaultDrive 1
        = (if (1 : Nat) = pinInputDefaultDrive.drive_mode then none
           else some (.valueError "Pin drive modes cannot be changed from their default")) :=
  ⟨(c9_drivemode_amended pinInputDefaultDrive 1).1 (by decide),
   (c9_drivemode_amended pinInputDefaultDrive 1).2⟩

end Parallel64
